import Mathlib

/-!
Verification of the expenses-tracker authentication core.

Shallow embedding of the Go implementation (internal/auth/password.go,
internal/auth/jwt.go, internal/handlers/auth_handlers.go) and, where the
claims target it, the TypeScript port (src/auth/jwt.ts).  Strings are
modelled as Lean strings / lists of characters (all inputs of interest are
ASCII, so Go's byte-wise len coincides with the character count), instants
and durations as natural numbers of seconds, and the database as an
explicit record of user rows and refresh-token rows.
-/

/-! ## Password policy (internal/auth/password.go, ValidatePassword) -/

def MinPasswordLength : Nat := 8

def MaxPasswordLength : Nat := 128

def BcryptCost : Nat := 12

/-- The character class of the regex `[A-Z]` (hasUppercase). -/
def isUppercaseChar (c : Char) : Bool := 'A' ≤ c && c ≤ 'Z'

/-- The character class of the regex `[a-z]` (hasLowercase). -/
def isLowercaseChar (c : Char) : Bool := 'a' ≤ c && c ≤ 'z'

/-- The character class of the regex `[0-9]` (hasNumber). -/
def isDigitChar (c : Char) : Bool := '0' ≤ c && c ≤ '9'

/-- The punctuation/symbol class of the regex hasSpecial; quote, double
quote, braces and backtick are written via their code points. -/
def specialChars : List Char :=
  ['!', '@', '#', '$', '%', '^', '&', '*', '(', ')', '_', '+', '-', '=',
   '[', ']', Char.ofNat 123, Char.ofNat 125, ';', Char.ofNat 39, ':',
   Char.ofNat 34, '\\', '|', ',', '.', '<', '>', '/', '?', '~', Char.ofNat 96]

def isSpecialChar (c : Char) : Bool := specialChars.contains c

/-- The fixed weak-password substring list of ValidatePassword. -/
def weakPasswords : List String :=
  ["password", "123456", "123456789", "qwerty", "abc123",
   "password123", "admin", "letmein", "welcome", "monkey"]

/-- Go strings.Contains: some suffix of `hay` starts with `needle`. -/
def containsSub (hay needle : List Char) : Bool :=
  (List.range (hay.length + 1)).any (fun i => needle.isPrefixOf (hay.drop i))

/-- One 4-character window starting at index `i` consists of four equal
characters (the body of the loop in hasRepeatedChars, indexing rendered
through `List.drop`). -/
def fourEqualAt (p : List Char) (i : Nat) : Bool :=
  match p.drop i with
  | a :: b :: c :: d :: _ => a == b && b == c && c == d
  | _ => false

/-- hasRepeatedChars: some window of four consecutive equal characters
exists; the loop runs `i` from `0` to `len - 4`. -/
def hasRepeatedChars (p : List Char) : Bool :=
  if p.length < 4 then false
  else (List.range (p.length - 3)).any (fun i => fourEqualAt p i)

/-- Case-insensitive weak-substring test: the Go code lowercases the
password and searches each fixed weak word. -/
def containsWeakPassword (p : List Char) : Bool :=
  weakPasswords.any (fun w => containsSub (p.map Char.toLower) w.data)

/-- ValidatePassword from internal/auth/password.go: the exact chain of
checks, first failure winning, with the Go error messages. -/
def ValidatePassword (p : List Char) : Option String :=
  if p.length < MinPasswordLength then
    some ("Password must be at least 8 characters long")
  else if MaxPasswordLength < p.length then
    some ("Password must be no more than 128 characters long")
  else if containsWeakPassword p then
    some ("Password contains common weak patterns")
  else if !(p.any isUppercaseChar) then
    some ("Password must contain at least one uppercase letter")
  else if !(p.any isLowercaseChar) then
    some ("Password must contain at least one lowercase letter")
  else if !(p.any isDigitChar) then
    some ("Password must contain at least one number")
  else if !(p.any isSpecialChar) then
    some ("Password must contain at least one special character")
  else if hasRepeatedChars p then
    some ("Password cannot contain more than 3 repeated characters in a row")
  else
    none

/-! ### Spec-side reading of section 4.1

`violatesRule i p` says that `p` violates rule `i+1` of the spec's list
(rule 1: length ≥ 8, …, rule 8: no window of 4 identical consecutive
characters, scanning every 4-character window).  `specValidatePassword`
checks the rules in exactly the stated order, first failure winning,
returning the message of the first violated rule. -/

def violatesRule : Nat → List Char → Bool
  | 0, p => decide (p.length < MinPasswordLength)
  | 1, p => decide (MaxPasswordLength < p.length)
  | 2, p => containsWeakPassword p
  | 3, p => !(p.any isUppercaseChar)
  | 4, p => !(p.any isLowercaseChar)
  | 5, p => !(p.any isDigitChar)
  | 6, p => !(p.any isSpecialChar)
  | 7, p => (List.range (p.length - 3)).any (fun i => fourEqualAt p i)
  | _, _ => false

/-- The human-readable message naming each rule. -/
def ruleMessage : Nat → String
  | 0 => "Password must be at least 8 characters long"
  | 1 => "Password must be no more than 128 characters long"
  | 2 => "Password contains common weak patterns"
  | 3 => "Password must contain at least one uppercase letter"
  | 4 => "Password must contain at least one lowercase letter"
  | 5 => "Password must contain at least one number"
  | 6 => "Password must contain at least one special character"
  | _ => "Password cannot contain more than 3 repeated characters in a row"

/-- Section 4.1 read literally: the 8 rules in the stated order, first
failure wins, the result carries the message of the first violated rule. -/
def specValidatePassword (p : List Char) : Option String :=
  if violatesRule 0 p then some (ruleMessage 0)
  else if violatesRule 1 p then some (ruleMessage 1)
  else if violatesRule 2 p then some (ruleMessage 2)
  else if violatesRule 3 p then some (ruleMessage 3)
  else if violatesRule 4 p then some (ruleMessage 4)
  else if violatesRule 5 p then some (ruleMessage 5)
  else if violatesRule 6 p then some (ruleMessage 6)
  else if violatesRule 7 p then some (ruleMessage 7)
  else none

lemma hasRepeatedChars_eq_windowScan (p : List Char) :
    hasRepeatedChars p = (List.range (p.length - 3)).any (fun i => fourEqualAt p i) := by
  unfold hasRepeatedChars
  split
  · rename_i h
    have h3 : p.length - 3 = 0 := by omega
    simp [h3]
  · rfl

lemma validatePassword_eq_spec (p : List Char) :
    ValidatePassword p = specValidatePassword p := by
  unfold ValidatePassword specValidatePassword violatesRule ruleMessage
  rw [hasRepeatedChars_eq_windowScan]
  simp only [decide_eq_true_eq]

/-- The function ValidatePassword fails precisely when some rule among the 8 is
violated. -/
lemma validatePassword_none_iff (p : List Char) :
    ValidatePassword p = none ↔ ∀ i, i < 8 → violatesRule i p = false := by
  rw [validatePassword_eq_spec]
  unfold specValidatePassword
  constructor
  · intro h
    by_cases h0 : violatesRule 0 p = true
    · rw [if_pos h0] at h; exact absurd h (by simp)
    rw [if_neg h0] at h
    by_cases h1 : violatesRule 1 p = true
    · rw [if_pos h1] at h; exact absurd h (by simp)
    rw [if_neg h1] at h
    by_cases h2 : violatesRule 2 p = true
    · rw [if_pos h2] at h; exact absurd h (by simp)
    rw [if_neg h2] at h
    by_cases h3 : violatesRule 3 p = true
    · rw [if_pos h3] at h; exact absurd h (by simp)
    rw [if_neg h3] at h
    by_cases h4 : violatesRule 4 p = true
    · rw [if_pos h4] at h; exact absurd h (by simp)
    rw [if_neg h4] at h
    by_cases h5 : violatesRule 5 p = true
    · rw [if_pos h5] at h; exact absurd h (by simp)
    rw [if_neg h5] at h
    by_cases h6 : violatesRule 6 p = true
    · rw [if_pos h6] at h; exact absurd h (by simp)
    rw [if_neg h6] at h
    by_cases h7 : violatesRule 7 p = true
    · rw [if_pos h7] at h; exact absurd h (by simp)
    intro i hi
    interval_cases i <;> simp_all
  · intro h
    have h0 := h 0 (by omega)
    have h1 := h 1 (by omega)
    have h2 := h 2 (by omega)
    have h3 := h 3 (by omega)
    have h4 := h 4 (by omega)
    have h5 := h 5 (by omega)
    have h6 := h 6 (by omega)
    have h7 := h 7 (by omega)
    simp [h0, h1, h2, h3, h4, h5, h6, h7]

/-- C4: `validate` equals the ordered first-failure evaluation of the 8
rules of section 4.1 — it fails iff some rule is violated, the rules are
checked in the stated order with the first failure winning, and the
message names the first violated rule. -/
theorem validatePassword_matches_policy (p : List Char) :
    ValidatePassword p = specValidatePassword p
    ∧ ((ValidatePassword p).isSome ↔ ∃ i, i < 8 ∧ violatesRule i p = true) := by
  refine ⟨validatePassword_eq_spec p, ?_⟩
  have hiff := validatePassword_none_iff p
  constructor
  · intro h
    by_contra hc
    push_neg at hc
    have hnone : ValidatePassword p = none := by
      apply hiff.mpr
      intro i hi
      cases hb : violatesRule i p with
      | false => rfl
      | true => exact absurd hb (hc i hi)
    rw [hnone] at h
    simp at h
  · rintro ⟨i, hi, hv⟩
    cases he : ValidatePassword p with
    | some m => simp
    | none =>
      have := hiff.mp he i hi
      rw [hv] at this
      simp at this

/-! ## Credential hashing (internal/auth/password.go, HashPassword)

bcrypt itself is an external library (golang.org/x/crypto v0.43.0).  Its
`GenerateFromPassword` is modelled by its documented contract: it fails
with `ErrPasswordTooLong` whenever the password exceeds 72 bytes, and
otherwise produces a salted digest.  The digest value is opaque to every
claim, so it is represented by a placeholder constructor that records the
salt drawn for the call; the salt is threaded as an explicit argument in
place of the library's internal randomness. -/

def bcryptMaxInputLength : Nat := 72

def bcryptDigest (salt : String) (p : List Char) : String :=
  "$2a$12$" ++ salt ++ String.mk p

def bcryptGenerateFromPassword (salt : String) (p : List Char) : Except String String :=
  if bcryptMaxInputLength < p.length then
    Except.error ("bcrypt: password length exceeds 72 bytes")
  else
    Except.ok (bcryptDigest salt p)

/-- HashPassword from internal/auth/password.go: validate, then hash with
bcrypt at the configured cost. -/
def HashPassword (salt : String) (p : List Char) : Except String String :=
  match ValidatePassword p with
  | some e => Except.error e
  | none => bcryptGenerateFromPassword salt p

/-- A 73-character password satisfying every rule of the policy. -/
def pwd73 : String :=
  "Aa1!Bb2@Aa1!Bb2@Aa1!Bb2@Aa1!Bb2@Aa1!Bb2@Aa1!Bb2@Aa1!Bb2@Aa1!Bb2@Aa1!Bb2@C"

/-- C5: the policy maximum (128) exceeds bcrypt's 72-byte input ceiling:
the concrete 73-character password `pwd73` passes `ValidatePassword`, yet
`HashPassword` fails on it with the bcrypt length error — refuting the
claim that every validated password hashes successfully. -/
theorem hashPassword_fails_on_validated_pwd73 :
    ValidatePassword pwd73.data = none
    ∧ pwd73.data.length ≤ MaxPasswordLength
    ∧ (∀ salt, HashPassword salt pwd73.data =
        Except.error ("bcrypt: password length exceeds 72 bytes")) := by
  refine ⟨by decide, by decide, fun salt => ?_⟩
  show HashPassword salt pwd73.data = _
  unfold HashPassword
  rw [show ValidatePassword pwd73.data = none from by decide]
  unfold bcryptGenerateFromPassword
  rw [if_pos (by decide)]

/-! ## Access-token codec (internal/auth/jwt.go)

The HMAC signature is modelled symbolically: a signed token records the
claims, the signing algorithm, and the secret used to produce its MAC;
verification succeeds only when it is given the same secret (the standard
idealisation of an unforgeable MAC).  Instants are naturals; golang-jwt
v5 treats a token as live only while `now < exp` and `nbf ≤ now`. -/

structure JWTRegisteredClaims where
  issuedAt : Nat
  expiresAt : Nat
  notBefore : Nat
  issuer : String
  subject : String
deriving DecidableEq

structure JWTClaims where
  userId : Nat
  email : String
  registered : JWTRegisteredClaims
deriving DecidableEq

inductive SigningAlg where
  | HS256
  | RS256
deriving DecidableEq

def isHMACAlg : SigningAlg → Bool
  | SigningAlg.HS256 => true
  | SigningAlg.RS256 => false

structure SignedToken where
  claims : JWTClaims
  alg : SigningAlg
  signedWith : String
deriving DecidableEq

/-- GenerateAccessToken from internal/auth/jwt.go. -/
def GenerateAccessToken (secret : String) (accessExpiry : Nat) (now : Nat)
    (userID : Nat) (email : String) : SignedToken :=
  { claims :=
      { userId := userID
        email := email
        registered :=
          { issuedAt := now
            expiresAt := now + accessExpiry
            notBefore := now
            issuer := "expenses-tracker-go"
            subject := toString userID } }
    alg := SigningAlg.HS256
    signedWith := secret }

/-- ValidateAccessToken from internal/auth/jwt.go: reject non-HMAC
algorithms, bad signatures, expired and not-yet-valid tokens. -/
def ValidateAccessToken (secret : String) (now : Nat) (tok : SignedToken) :
    Except String JWTClaims :=
  if isHMACAlg tok.alg = false then
    Except.error ("unexpected signing method")
  else if tok.signedWith ≠ secret then
    Except.error ("signature is invalid")
  else if tok.claims.registered.expiresAt ≤ now then
    Except.error ("token is expired")
  else if now < tok.claims.registered.notBefore then
    Except.error ("token has invalid claims: token is not valid yet")
  else
    Except.ok tok.claims

def exceptIsError : Except String JWTClaims → Bool
  | Except.error _ => true
  | Except.ok _ => false

/-- C6: issuing then immediately verifying with the same secret returns
the embedded userId/email; verification with any other secret fails; and
verification strictly after the expires-at instant fails. -/
theorem accessToken_roundtrip_and_rejections
    (secret : String) (ttl now userID : Nat) (email : String)
    (httl : 0 < ttl) :
    (ValidateAccessToken secret now (GenerateAccessToken secret ttl now userID email) =
        Except.ok (GenerateAccessToken secret ttl now userID email).claims
      ∧ (GenerateAccessToken secret ttl now userID email).claims.userId = userID
      ∧ (GenerateAccessToken secret ttl now userID email).claims.email = email)
    ∧ (∀ tok : SignedToken, tok.signedWith ≠ secret →
        exceptIsError (ValidateAccessToken secret now tok) = true)
    ∧ (∀ t, (GenerateAccessToken secret ttl now userID email).claims.registered.expiresAt < t →
        exceptIsError
          (ValidateAccessToken secret t (GenerateAccessToken secret ttl now userID email)) = true) := by
  refine ⟨⟨?_, rfl, rfl⟩, ?_, ?_⟩
  · unfold ValidateAccessToken GenerateAccessToken
    simp only
    rw [if_neg (by simp [isHMACAlg])]
    rw [if_neg (by simp)]
    rw [if_neg (by omega)]
    rw [if_neg (by omega)]
  · intro tok htok
    unfold ValidateAccessToken
    by_cases halg : isHMACAlg tok.alg = false
    · rw [if_pos halg]; rfl
    · rw [if_neg halg, if_pos htok]; rfl
  · intro t ht
    unfold ValidateAccessToken GenerateAccessToken
    simp only
    rw [if_neg (by simp [isHMACAlg])]
    rw [if_neg (by simp)]
    rw [if_pos (by simp only [GenerateAccessToken] at ht; omega)]
    rfl

/-- Witness for C6 at secret "s", ttl 900, now 0, user 1. -/
theorem accessToken_roundtrip_witness :
    (0 : Nat) < 900
    ∧ ((ValidateAccessToken ("s") 0 (GenerateAccessToken ("s") 900 0 1 ("a@b.com")) =
          Except.ok (GenerateAccessToken ("s") 900 0 1 ("a@b.com")).claims
        ∧ (GenerateAccessToken ("s") 900 0 1 ("a@b.com")).claims.userId = 1
        ∧ (GenerateAccessToken ("s") 900 0 1 ("a@b.com")).claims.email = "a@b.com")
      ∧ (∀ tok : SignedToken, tok.signedWith ≠ "s" →
          exceptIsError (ValidateAccessToken ("s") 0 tok) = true)
      ∧ (∀ t, (GenerateAccessToken ("s") 900 0 1 ("a@b.com")).claims.registered.expiresAt < t →
          exceptIsError
            (ValidateAccessToken ("s") t (GenerateAccessToken ("s") 900 0 1 ("a@b.com"))) = true)) :=
  ⟨by decide, accessToken_roundtrip_and_rejections ("s") 900 0 1 ("a@b.com") (by decide)⟩

/-- C7 counterexample: the issuer embedded by the Go
`GenerateAccessToken` is "expenses-tracker-go", not "expenses-tracker" as
the claim states, already at userId 1, email "a@b.com", time 0. -/
theorem accessToken_issuer_counterexample :
    (GenerateAccessToken ("s") 900 0 1 ("a@b.com")).claims.registered.issuer
      ≠ "expenses-tracker" := by
  decide

/-- C7 (amended): the issued token embeds issued-at = not-before = the
issuing instant, expires-at = issuing instant + accessTTL, issuer
"expenses-tracker-go", subject the decimal string of userId, and is
MAC-signed with the server secret under an HMAC algorithm. -/
theorem accessToken_claim_fields (secret : String) (ttl now userID : Nat) (email : String) :
    (GenerateAccessToken secret ttl now userID email).claims.registered.issuedAt = now
    ∧ (GenerateAccessToken secret ttl now userID email).claims.registered.notBefore = now
    ∧ (GenerateAccessToken secret ttl now userID email).claims.registered.expiresAt = now + ttl
    ∧ (GenerateAccessToken secret ttl now userID email).claims.registered.issuer = "expenses-tracker-go"
    ∧ (GenerateAccessToken secret ttl now userID email).claims.registered.subject = toString userID
    ∧ (GenerateAccessToken secret ttl now userID email).claims.userId = userID
    ∧ (GenerateAccessToken secret ttl now userID email).claims.email = email
    ∧ isHMACAlg (GenerateAccessToken secret ttl now userID email).alg = true
    ∧ (GenerateAccessToken secret ttl now userID email).signedWith = secret :=
  ⟨rfl, rfl, rfl, rfl, rfl, rfl, rfl, rfl, rfl⟩

/-! ## Codec initialisation (src/auth/jwt.ts, initJWT / parseDuration)

The TypeScript port of `initialize`.  An environment variable is an
`Option String`; JavaScript's `process.env.X || defaultStr` treats both a
missing and an empty variable as unset.  Durations are returned in
seconds. -/

structure JWTConfig where
  jwtSecret : String
  accessExpiry : Nat
  refreshExpiry : Nat
deriving DecidableEq

def digitsToNat (ds : List Char) : Nat :=
  ds.foldl (fun acc c => acc * 10 + (c.toNat - 48)) 0

def unitMultiplier (u : Char) : Nat :=
  if u = 's' then 1
  else if u = 'm' then 60
  else if u = 'h' then 3600
  else 86400

def durationFormatError (s : String) : String :=
  "Invalid duration format: " ++ s ++
    ". Expected format: <number><unit> (e.g., 15m, 168h, 7d)"

/-- parseDuration from src/auth/jwt.ts: the regex
`(\d+)([smhd])` anchored at both ends — a nonempty run of digits followed
by exactly one unit character — otherwise a descriptive format error. -/
def parseDuration (s : String) : Except String Nat :=
  match s.data.reverse with
  | [] => Except.error (durationFormatError s)
  | u :: revDigits =>
    let ds := revDigits.reverse
    if ds ≠ [] && ds.all isDigitChar && (u = 's' || u = 'm' || u = 'h' || u = 'd') then
      Except.ok (digitsToNat ds * unitMultiplier u)
    else
      Except.error (durationFormatError s)

/-- The `env || default` idiom: empty and missing are both unset. -/
def envOrDefault (v : Option String) (dflt : String) : String :=
  match v with
  | none => dflt
  | some s => if s = "" then dflt else s

/-- initJWT from src/auth/jwt.ts: require a nonempty secret, then parse
the access TTL (default "15m") and the refresh TTL (default "168h"). -/
def initJWT (envSecret envAccess envRefresh : Option String) :
    Except String JWTConfig :=
  let secret := envOrDefault envSecret ("")
  if secret = "" then
    Except.error ("JWT_SECRET environment variable is required")
  else
    match parseDuration (envOrDefault envAccess ("15m")) with
    | Except.error e => Except.error e
    | Except.ok a =>
      match parseDuration (envOrDefault envRefresh ("168h")) with
      | Except.error e => Except.error e
      | Except.ok r => Except.ok { jwtSecret := secret, accessExpiry := a, refreshExpiry := r }

/-- A duration string is well-formed when it is a nonempty digit run
followed by one of the unit letters s, m, h, d (the amended format
condition). -/
def durationWellFormed (s : String) : Bool :=
  match s.data.reverse with
  | [] => false
  | u :: revDigits =>
    revDigits ≠ [] && revDigits.reverse.all isDigitChar
      && (u = 's' || u = 'm' || u = 'h' || u = 'd')

/-- C8 counterexample: the zero duration "0s" is accepted, not rejected —
`initJWT` succeeds and stores an access expiry of 0 seconds, refuting the
claim that zero durations fail. -/
theorem initJWT_accepts_zero_duration :
    initJWT (some ("sec")) (some ("0s")) none =
      Except.ok { jwtSecret := "sec", accessExpiry := 0, refreshExpiry := 604800 } := by
  rfl

/-- The value denoted by a well-formed duration string, in seconds. -/
def parsedDurationValue (d : String) : Nat :=
  digitsToNat d.data.reverse.tail.reverse * unitMultiplier (d.data.reverse.headI)

lemma parseDuration_wellFormed_ok (d : String) (h : durationWellFormed d = true) :
    parseDuration d = Except.ok (parsedDurationValue d) := by
  unfold parsedDurationValue
  unfold durationWellFormed at h
  unfold parseDuration
  cases hd : d.data.reverse with
  | nil => rw [hd] at h; simp at h
  | cons u revDigits =>
    rw [hd] at h
    simp only
    rw [if_pos (by simpa using h)]
    simp [hd]

lemma parseDuration_illFormed_error (d : String) (h : durationWellFormed d = false) :
    parseDuration d = Except.error (durationFormatError d) := by
  unfold durationWellFormed at h
  unfold parseDuration
  cases hd : d.data.reverse with
  | nil => simp
  | cons u revDigits =>
    rw [hd] at h
    simp only
    rw [if_neg (by simpa using h)]

/-- C8 (amended): `initJWT` fails with the required-secret error when the
secret is missing or empty; with a nonempty secret and both TTLs unset it
succeeds with the defaults 15 minutes (900 s) and 7 days (604800 s); a
supplied TTL that does not match the <digits><s|m|h|d> format makes it
fail with the descriptive format error naming the bad string; a
well-formed TTL — including a zero duration such as "0s" — is accepted
with its parsed value. -/
theorem initJWT_behaviour (s d : String) (hs : s ≠ "") (hd : d ≠ "") :
    initJWT none none none = Except.error ("JWT_SECRET environment variable is required")
    ∧ initJWT (some ("")) none none = Except.error ("JWT_SECRET environment variable is required")
    ∧ initJWT (some s) none none =
        Except.ok { jwtSecret := s, accessExpiry := 900, refreshExpiry := 604800 }
    ∧ (durationWellFormed d = false →
        initJWT (some s) (some d) none = Except.error (durationFormatError d))
    ∧ (durationWellFormed d = true →
        initJWT (some s) (some d) none =
          Except.ok { jwtSecret := s, accessExpiry := parsedDurationValue d,
                      refreshExpiry := 604800 }) := by
  refine ⟨rfl, rfl, ?_, ?_, ?_⟩
  · unfold initJWT envOrDefault
    simp only [if_neg hs]
    rfl
  · intro hw
    unfold initJWT envOrDefault
    simp only [if_neg hs, if_neg hd, parseDuration_illFormed_error d hw]
  · intro hw
    unfold initJWT envOrDefault
    simp only [if_neg hs, if_neg hd, parseDuration_wellFormed_ok d hw]
    rfl

/-- Witness for C8 at secret "sec" and the ill-formed TTL "xx". -/
theorem initJWT_behaviour_witness :
    ("sec" ≠ "" ∧ "xx" ≠ "")
    ∧ (initJWT none none none = Except.error ("JWT_SECRET environment variable is required")
      ∧ initJWT (some ("")) none none = Except.error ("JWT_SECRET environment variable is required")
      ∧ initJWT (some ("sec")) none none =
          Except.ok { jwtSecret := "sec", accessExpiry := 900, refreshExpiry := 604800 }
      ∧ (durationWellFormed ("xx") = false →
          initJWT (some ("sec")) (some ("xx")) none = Except.error (durationFormatError ("xx")))
      ∧ (durationWellFormed ("xx") = true →
          initJWT (some ("sec")) (some ("xx")) none =
            Except.ok { jwtSecret := "sec", accessExpiry := parsedDurationValue ("xx"),
                        refreshExpiry := 604800 })) :=
  ⟨⟨by decide, by decide⟩, initJWT_behaviour ("sec") "xx" (by decide) (by decide)⟩

/-! ## Credential store (schema of the users and refresh_tokens tables)

A database state is a list of user rows and refresh-token rows; SQL
equality on VARCHAR columns is exact, case-sensitive string equality.
Audit timestamps (created_at/updated_at) carry no claim content and are
omitted.  Instants are naturals (seconds). -/

structure UserRow where
  id : Nat
  email : String
  passwordHash : String
  emailVerified : Bool
  verificationToken : Option String
  verificationTokenExpires : Option Nat
  resetToken : Option String
  resetTokenExpires : Option Nat
  failedLoginAttempts : Nat
  lockedUntil : Option Nat
deriving DecidableEq

structure RefreshTokenRow where
  userId : Nat
  token : String
  expiresAt : Nat
deriving DecidableEq

structure DBState where
  users : List UserRow
  refreshTokens : List RefreshTokenRow
deriving DecidableEq

/-- SELECT ... FROM users WHERE email = $1 (first row). -/
def findUserByEmail (st : DBState) (e : String) : Option UserRow :=
  st.users.find? (fun u => u.email == e)

/-- SELECT ... FROM users WHERE id = $1 (first row). -/
def findUserById (st : DBState) (i : Nat) : Option UserRow :=
  st.users.find? (fun u => u.id == i)

/-- UPDATE users SET ... WHERE id = $n : apply `f` to every row whose id
matches. -/
def updateUserRows (st : DBState) (i : Nat) (f : UserRow → UserRow) : DBState :=
  { st with users := st.users.map (fun u => if u.id == i then f u else u) }

/-- Fifteen minutes, in seconds (the lockout window). -/
def lockoutDuration : Nat := 15 * 60

/-- Twenty-four hours, in seconds (verification-token lifetime). -/
def verificationTokenTTL : Nat := 24 * 3600

/-- Character class of the local part of the email regex,
`[a-zA-Z0-9._%+-]`. -/
def emailLocalChar (c : Char) : Bool :=
  isUppercaseChar c || isLowercaseChar c || isDigitChar c ||
    c = '.' || c = '_' || c = '%' || c = '+' || c = '-'

/-- Character class of the domain part of the email regex, `[a-zA-Z0-9.-]`. -/
def emailDomainChar (c : Char) : Bool :=
  isUppercaseChar c || isLowercaseChar c || isDigitChar c || c = '.' || c = '-'

def isAlphaChar (c : Char) : Bool := isUppercaseChar c || isLowercaseChar c

/-- isValidEmail from internal/handlers/auth_handlers.go: the anchored
regex local+ at-sign domain+ dot alpha-run of length at least 2.  Because
the trailing alpha run may contain no dot, a match must split the tail at
its last dot, which makes the regex's existential match condition the
explicit check below. -/
def isValidEmail (e : String) : Bool :=
  let cs := e.data
  let localPart := cs.takeWhile (fun c => c ≠ '@')
  match cs.dropWhile (fun c => c ≠ '@') with
  | '@' :: tail =>
    (localPart ≠ [] && localPart.all emailLocalChar) &&
    (match (tail.reverse.dropWhile (fun c => c ≠ '.')) with
     | '.' :: domRev =>
       let tld := tail.reverse.takeWhile (fun c => c ≠ '.')
       domRev ≠ [] && domRev.all emailDomainChar &&
         decide (2 ≤ tld.length) && tld.all isAlphaChar
     | _ => false)
  | _ => false

lemma find?_map_update (l : List UserRow) (i : Nat)
    (f : UserRow → UserRow) (hf : ∀ v, (f v).id = v.id) (u : UserRow)
    (h : l.find? (fun v => v.id == i) = some u) :
    (l.map (fun v => if v.id == i then f v else v)).find? (fun v => v.id == i)
      = some (f u) := by
  induction l with
  | nil => simp at h
  | cons a l ih =>
    cases ha : (a.id == i) with
    | true =>
      have hu : u = a := by
        rw [List.find?_cons, ha] at h
        simp at h
        exact h.symm
      subst hu
      have hfa : ((f u).id == i) = true := by
        have := hf u
        simp only [beq_iff_eq] at ha ⊢
        rw [this, ha]
      simp only [List.map_cons]
      rw [if_pos ha, List.find?_cons, hfa]
    | false =>
      have h' : l.find? (fun v => v.id == i) = some u := by
        rw [List.find?_cons, ha] at h
        simpa using h
      have hrec := ih h'
      have hne : ¬((a.id == i) = true) := by
        rw [ha]
        simp
      simp only [List.map_cons]
      rw [if_neg hne, List.find?_cons, ha]
      exact hrec

/-! ## LoginHandler (internal/handlers/auth_handlers.go)

The handler after request decoding.  `cmp hash password` is the outcome
of `bcrypt.CompareHashAndPassword` and is passed in abstractly: the
claims about the lockout machinery quantify over it.  The fresh refresh
token (a random draw in the code) is likewise an explicit argument. -/

inductive LoginResult where
  | invalidEmailFormat
  | invalidCredentials
  | accountLocked
  | emailNotVerified
  | loginSuccess (access : SignedToken) (refresh : String)
deriving DecidableEq

/-- locked_until is set and still in the future (`time.Now().Before`). -/
def isCurrentlyLocked (u : UserRow) (now : Nat) : Bool :=
  match u.lockedUntil with
  | some t => decide (now < t)
  | none => false

def LoginHandler (cmp : String → String → Bool) (cfg : JWTConfig)
    (st : DBState) (email password : String) (now : Nat)
    (newRefreshToken : String) : DBState × LoginResult :=
  if isValidEmail email = false then
    (st, LoginResult.invalidEmailFormat)
  else
    match findUserByEmail st email with
    | none => (st, LoginResult.invalidCredentials)
    | some u =>
      if isCurrentlyLocked u now then
        (st, LoginResult.accountLocked)
      else if u.emailVerified = false then
        (st, LoginResult.emailNotVerified)
      else if cmp u.passwordHash password = false then
        let newAttempts := u.failedLoginAttempts + 1
        let newLocked : Option Nat :=
          if 5 ≤ newAttempts then some (now + lockoutDuration) else none
        (updateUserRows st u.id
          (fun v => { v with failedLoginAttempts := newAttempts, lockedUntil := newLocked }),
         LoginResult.invalidCredentials)
      else
        let st1 := updateUserRows st u.id
          (fun v => { v with failedLoginAttempts := 0, lockedUntil := none })
        let access := GenerateAccessToken cfg.jwtSecret cfg.accessExpiry now u.id u.email
        ({ st1 with refreshTokens :=
             st1.refreshTokens ++ [{ userId := u.id, token := newRefreshToken,
                                     expiresAt := now + cfg.refreshExpiry }] },
         LoginResult.loginSuccess access newRefreshToken)

/-- C1: on a failed password comparison for an existing, verified, not
currently locked user, the handler persists failed_login_attempts =
previous + 1, sets locked_until to now + 15 minutes exactly when the new
count reaches 5, leaves it unset otherwise, and returns the generic
invalid-credentials failure; no refresh-token row is touched. -/
theorem loginHandler_failed_password
    (cmp : String → String → Bool) (cfg : JWTConfig) (st : DBState)
    (email password : String) (now : Nat) (tok : String) (u : UserRow)
    (hemail : isValidEmail email = true)
    (hfind : findUserByEmail st email = some u)
    (hbyid : findUserById st u.id = some u)
    (hlock : isCurrentlyLocked u now = false)
    (hverif : u.emailVerified = true)
    (hcmp : cmp u.passwordHash password = false) :
    (LoginHandler cmp cfg st email password now tok).2 = LoginResult.invalidCredentials
    ∧ findUserById (LoginHandler cmp cfg st email password now tok).1 u.id =
        some { u with failedLoginAttempts := u.failedLoginAttempts + 1,
                      lockedUntil := if 5 ≤ u.failedLoginAttempts + 1
                                     then some (now + lockoutDuration) else none }
    ∧ (LoginHandler cmp cfg st email password now tok).1.refreshTokens = st.refreshTokens := by
  have hrun : LoginHandler cmp cfg st email password now tok =
      (updateUserRows st u.id
        (fun v => { v with failedLoginAttempts := u.failedLoginAttempts + 1,
                           lockedUntil := if 5 ≤ u.failedLoginAttempts + 1
                                          then some (now + lockoutDuration) else none }),
       LoginResult.invalidCredentials) := by
    unfold LoginHandler
    rw [hemail]
    simp only [Bool.true_eq_false, if_false, hfind]
    rw [hlock, hverif]
    simp only [Bool.false_eq_true, if_false, Bool.true_eq_false, hcmp]
    rfl
  rw [hrun]
  refine ⟨rfl, ?_, rfl⟩
  unfold findUserById at hbyid ⊢
  unfold updateUserRows
  exact find?_map_update st.users u.id
    (fun v => { v with failedLoginAttempts := u.failedLoginAttempts + 1,
                       lockedUntil := if 5 ≤ u.failedLoginAttempts + 1
                                      then some (now + lockoutDuration) else none })
    (fun v => rfl) u hbyid

/-- Witness for C1: one stored verified user with 1 prior failed attempt,
a comparison that fails, attempts become 2 and no lock is set. -/
theorem loginHandler_failed_password_witness :
    (isValidEmail ("a@b.com") = true
      ∧ findUserByEmail
          { users := [{ id := 1, email := "a@b.com", passwordHash := "h",
                        emailVerified := true, verificationToken := none,
                        verificationTokenExpires := none, resetToken := none,
                        resetTokenExpires := none, failedLoginAttempts := 1,
                        lockedUntil := none }], refreshTokens := [] } "a@b.com" =
          some { id := 1, email := "a@b.com", passwordHash := "h",
                 emailVerified := true, verificationToken := none,
                 verificationTokenExpires := none, resetToken := none,
                 resetTokenExpires := none, failedLoginAttempts := 1,
                 lockedUntil := none })
    ∧ (LoginHandler (fun _ _ => false) { jwtSecret := "s", accessExpiry := 900, refreshExpiry := 604800 }
          { users := [{ id := 1, email := "a@b.com", passwordHash := "h",
                        emailVerified := true, verificationToken := none,
                        verificationTokenExpires := none, resetToken := none,
                        resetTokenExpires := none, failedLoginAttempts := 1,
                        lockedUntil := none }], refreshTokens := [] }
          "a@b.com" "wrong" 100 ("rt")).2 = LoginResult.invalidCredentials := by
  refine ⟨⟨by decide, by decide⟩, ?_⟩
  exact (loginHandler_failed_password (fun _ _ => false)
    { jwtSecret := "s", accessExpiry := 900, refreshExpiry := 604800 }
    { users := [{ id := 1, email := "a@b.com", passwordHash := "h",
                  emailVerified := true, verificationToken := none,
                  verificationTokenExpires := none, resetToken := none,
                  resetTokenExpires := none, failedLoginAttempts := 1,
                  lockedUntil := none }], refreshTokens := [] }
    "a@b.com" "wrong" 100 ("rt")
    { id := 1, email := "a@b.com", passwordHash := "h",
      emailVerified := true, verificationToken := none,
      verificationTokenExpires := none, resetToken := none,
      resetTokenExpires := none, failedLoginAttempts := 1,
      lockedUntil := none }
    (by decide) (by decide) (by decide) (by decide) (by decide) rfl).1

/-- C2: when locked_until is set and strictly in the future, login
returns the Locked failure and leaves the state untouched, for every
possible password-comparison function — so no comparison outcome is
consulted and no field changes. -/
theorem loginHandler_locked
    (cmp : String → String → Bool) (cfg : JWTConfig) (st : DBState)
    (email password : String) (now t : Nat) (tok : String) (u : UserRow)
    (hemail : isValidEmail email = true)
    (hfind : findUserByEmail st email = some u)
    (hlocked : u.lockedUntil = some t)
    (hfut : now < t) :
    LoginHandler cmp cfg st email password now tok = (st, LoginResult.accountLocked) := by
  unfold LoginHandler
  rw [hemail]
  simp only [Bool.true_eq_false, if_false, hfind]
  have : isCurrentlyLocked u now = true := by
    unfold isCurrentlyLocked
    rw [hlocked]
    simpa using hfut
  rw [this]
  rfl

/-- Witness for C2: a user locked until instant 500, probed at 100 with
two different comparison functions, both yielding the untouched state and
the Locked failure. -/
theorem loginHandler_locked_witness :
    (isValidEmail ("a@b.com") = true ∧ (100 : Nat) < 500)
    ∧ (LoginHandler (fun _ _ => true) { jwtSecret := "s", accessExpiry := 900, refreshExpiry := 604800 }
        { users := [{ id := 1, email := "a@b.com", passwordHash := "h",
                      emailVerified := true, verificationToken := none,
                      verificationTokenExpires := none, resetToken := none,
                      resetTokenExpires := none, failedLoginAttempts := 5,
                      lockedUntil := some 500 }], refreshTokens := [] }
        "a@b.com" "right" 100 ("rt") =
        ({ users := [{ id := 1, email := "a@b.com", passwordHash := "h",
                       emailVerified := true, verificationToken := none,
                       verificationTokenExpires := none, resetToken := none,
                       resetTokenExpires := none, failedLoginAttempts := 5,
                       lockedUntil := some 500 }], refreshTokens := [] },
         LoginResult.accountLocked)) := by
  refine ⟨⟨by decide, by decide⟩, ?_⟩
  exact loginHandler_locked (fun _ _ => true)
    { jwtSecret := "s", accessExpiry := 900, refreshExpiry := 604800 }
    { users := [{ id := 1, email := "a@b.com", passwordHash := "h",
                  emailVerified := true, verificationToken := none,
                  verificationTokenExpires := none, resetToken := none,
                  resetTokenExpires := none, failedLoginAttempts := 5,
                  lockedUntil := some 500 }], refreshTokens := [] }
    "a@b.com" "right" 100 500 ("rt")
    { id := 1, email := "a@b.com", passwordHash := "h",
      emailVerified := true, verificationToken := none,
      verificationTokenExpires := none, resetToken := none,
      resetTokenExpires := none, failedLoginAttempts := 5,
      lockedUntil := some 500 }
    (by decide) (by decide) rfl (by decide)

/-! ## ResetPasswordHandler and RefreshTokenHandler
(internal/handlers/auth_handlers.go) -/

inductive ResetResult where
  | passwordValidationFailed (msg : String)
  | invalidOrExpiredToken
  | hashingFailed (msg : String)
  | resetSuccess
deriving DecidableEq

/-- reset_token = $1 AND reset_token_expires > NOW(). -/
def resetTokenMatches (u : UserRow) (token : String) (now : Nat) : Bool :=
  u.resetToken == some token &&
    (match u.resetTokenExpires with
     | some t => decide (now < t)
     | none => false)

def ResetPasswordHandler (st : DBState) (token newPassword : String)
    (now : Nat) (salt : String) : DBState × ResetResult :=
  match ValidatePassword newPassword.data with
  | some msg => (st, ResetResult.passwordValidationFailed msg)
  | none =>
    match st.users.find? (fun u => resetTokenMatches u token now) with
    | none => (st, ResetResult.invalidOrExpiredToken)
    | some u =>
      match HashPassword salt newPassword.data with
      | Except.error e => (st, ResetResult.hashingFailed e)
      | Except.ok h =>
        let st1 := updateUserRows st u.id
          (fun v => { v with passwordHash := h, resetToken := none,
                             resetTokenExpires := none, failedLoginAttempts := 0,
                             lockedUntil := none })
        ({ st1 with refreshTokens :=
             st1.refreshTokens.filter (fun rt => rt.userId != u.id) },
         ResetResult.resetSuccess)

inductive RefreshResult where
  | invalidOrExpiredRefreshToken
  | refreshSuccess (access : SignedToken)
deriving DecidableEq

/-- The join of RefreshTokenHandler: a refresh-token row matching the
supplied token, not yet expired, whose owning user is verified. -/
def refreshRowLive (st : DBState) (rt : RefreshTokenRow) (token : String)
    (now : Nat) : Bool :=
  rt.token == token && decide (now < rt.expiresAt) &&
    (match findUserById st rt.userId with
     | some u => u.emailVerified
     | none => false)

def RefreshTokenHandler (cfg : JWTConfig) (st : DBState) (token : String)
    (now : Nat) : RefreshResult :=
  match st.refreshTokens.find? (fun rt => refreshRowLive st rt token now) with
  | none => RefreshResult.invalidOrExpiredRefreshToken
  | some rt =>
    match findUserById st rt.userId with
    | some u => RefreshResult.refreshSuccess
        (GenerateAccessToken cfg.jwtSecret cfg.accessExpiry now u.id u.email)
    | none => RefreshResult.invalidOrExpiredRefreshToken

/-- C3 counterexample: with the valid-per-policy 73-character password
`pwd73` and a live reset token, the operation fails at the hashing step —
nothing is persisted and the user's refresh tokens survive — refuting the
claim that passing validation plus a live token suffices. -/
theorem resetPassword_counterexample :
    ValidatePassword pwd73.data = none
    ∧ ResetPasswordHandler
        { users := [{ id := 1, email := "a@b.com", passwordHash := "h",
                      emailVerified := true, verificationToken := none,
                      verificationTokenExpires := none, resetToken := some ("tok"),
                      resetTokenExpires := some 100, failedLoginAttempts := 0,
                      lockedUntil := none }],
          refreshTokens := [{ userId := 1, token := "rt1", expiresAt := 1000 }] }
        "tok" pwd73 0 ("salt") =
      ({ users := [{ id := 1, email := "a@b.com", passwordHash := "h",
                     emailVerified := true, verificationToken := none,
                     verificationTokenExpires := none, resetToken := some ("tok"),
                     resetTokenExpires := some 100, failedLoginAttempts := 0,
                     lockedUntil := none }],
         refreshTokens := [{ userId := 1, token := "rt1", expiresAt := 1000 }] },
       ResetResult.hashingFailed ("bcrypt: password length exceeds 72 bytes")) := by
  exact ⟨by decide, by decide⟩

/-- C3 (amended): for a new password that passes validation and is within
bcrypt's 72-byte ceiling, and a reset token matching a user with a
still-live expiry, the handler persists the new hash, clears the reset
token pair, zeroes failed_login_attempts, clears locked_until, deletes
every refresh-token row of that user, and any refresh token that belonged
to that user subsequently fails RefreshTokenHandler. -/
theorem resetPassword_success
    (st : DBState) (token newPassword salt : String) (now : Nat) (u : UserRow)
    (hvalid : ValidatePassword newPassword.data = none)
    (hlen : newPassword.data.length ≤ 72)
    (hfind : st.users.find? (fun v => resetTokenMatches v token now) = some u)
    (hbyid : findUserById st u.id = some u) :
    (ResetPasswordHandler st token newPassword now salt).2 = ResetResult.resetSuccess
    ∧ findUserById (ResetPasswordHandler st token newPassword now salt).1 u.id =
        some { u with passwordHash := bcryptDigest salt newPassword.data,
                      resetToken := none, resetTokenExpires := none,
                      failedLoginAttempts := 0, lockedUntil := none }
    ∧ (∀ rt ∈ (ResetPasswordHandler st token newPassword now salt).1.refreshTokens,
        rt.userId ≠ u.id)
    ∧ (∀ t, (∀ rt ∈ st.refreshTokens, rt.token = t → rt.userId = u.id) →
        ∀ cfg now2,
          RefreshTokenHandler cfg (ResetPasswordHandler st token newPassword now salt).1 t now2 =
            RefreshResult.invalidOrExpiredRefreshToken) := by
  have hhash : HashPassword salt newPassword.data =
      Except.ok (bcryptDigest salt newPassword.data) := by
    unfold HashPassword
    rw [hvalid]
    unfold bcryptGenerateFromPassword
    rw [if_neg (by unfold bcryptMaxInputLength; omega)]
  have hrun : ResetPasswordHandler st token newPassword now salt =
      ({ users := st.users.map (fun v => if v.id == u.id then
            { v with passwordHash := bcryptDigest salt newPassword.data,
                     resetToken := none, resetTokenExpires := none,
                     failedLoginAttempts := 0, lockedUntil := none } else v),
         refreshTokens := st.refreshTokens.filter (fun rt => rt.userId != u.id) },
       ResetResult.resetSuccess) := by
    unfold ResetPasswordHandler
    rw [hvalid]
    simp only [hfind, hhash]
    rfl
  rw [hrun]
  refine ⟨rfl, ?_, ?_, ?_⟩
  · unfold findUserById at hbyid ⊢
    exact find?_map_update st.users u.id
      (fun v => { v with passwordHash := bcryptDigest salt newPassword.data,
                         resetToken := none, resetTokenExpires := none,
                         failedLoginAttempts := 0, lockedUntil := none })
      (fun v => rfl) u hbyid
  · intro rt hrt
    simp only [List.mem_filter] at hrt
    have := hrt.2
    simpa using this
  · intro t huniq cfg now2
    unfold RefreshTokenHandler
    have hnone :
        (st.refreshTokens.filter (fun rt => rt.userId != u.id)).find?
          (fun rt => refreshRowLive
            { users := st.users.map (fun v => if v.id == u.id then
                { v with passwordHash := bcryptDigest salt newPassword.data,
                         resetToken := none, resetTokenExpires := none,
                         failedLoginAttempts := 0, lockedUntil := none } else v),
              refreshTokens := st.refreshTokens.filter (fun rt => rt.userId != u.id) }
            rt t now2) = none := by
      rw [List.find?_eq_none]
      intro rt hrt
      simp only [List.mem_filter] at hrt
      have hown : rt.userId ≠ u.id := by simpa using hrt.2
      intro hlive
      unfold refreshRowLive at hlive
      have htok : rt.token = t := by
        have := (Bool.and_eq_true _ _).mp hlive
        have := (Bool.and_eq_true _ _).mp this.1
        simpa using this.1
      exact hown (huniq rt hrt.1 htok)
    simp only [hnone]

/-- Witness for C3: one user holding reset token "tok" (expiry 100), one
refresh token, reset performed at instant 0 with password "Xk3!wqZm". -/
theorem resetPassword_success_witness :
    (ValidatePassword ("Xk3!wqZm").data = none ∧ "Xk3!wqZm".data.length ≤ 72)
    ∧ ((ResetPasswordHandler
          { users := [{ id := 1, email := "a@b.com", passwordHash := "h",
                        emailVerified := true, verificationToken := none,
                        verificationTokenExpires := none, resetToken := some ("tok"),
                        resetTokenExpires := some 100, failedLoginAttempts := 4,
                        lockedUntil := some 900 }],
            refreshTokens := [{ userId := 1, token := "rt1", expiresAt := 1000 }] }
          "tok" "Xk3!wqZm" 0 ("salt")).2 = ResetResult.resetSuccess
      ∧ (∀ rt ∈ (ResetPasswordHandler
          { users := [{ id := 1, email := "a@b.com", passwordHash := "h",
                        emailVerified := true, verificationToken := none,
                        verificationTokenExpires := none, resetToken := some ("tok"),
                        resetTokenExpires := some 100, failedLoginAttempts := 4,
                        lockedUntil := some 900 }],
            refreshTokens := [{ userId := 1, token := "rt1", expiresAt := 1000 }] }
          "tok" "Xk3!wqZm" 0 ("salt")).1.refreshTokens, rt.userId ≠ 1)) := by
  have h := resetPassword_success
    { users := [{ id := 1, email := "a@b.com", passwordHash := "h",
                  emailVerified := true, verificationToken := none,
                  verificationTokenExpires := none, resetToken := some ("tok"),
                  resetTokenExpires := some 100, failedLoginAttempts := 4,
                  lockedUntil := some 900 }],
      refreshTokens := [{ userId := 1, token := "rt1", expiresAt := 1000 }] }
    "tok" "Xk3!wqZm" "salt" 0
    { id := 1, email := "a@b.com", passwordHash := "h",
      emailVerified := true, verificationToken := none,
      verificationTokenExpires := none, resetToken := some ("tok"),
      resetTokenExpires := some 100, failedLoginAttempts := 4,
      lockedUntil := some 900 }
    (by decide) (by decide) (by decide) (by decide)
  exact ⟨⟨by decide, by decide⟩, h.1, h.2.2.1⟩

/-! ## RegisterHandler (internal/handlers/auth_handlers.go) -/

inductive RegisterResult where
  | invalidEmailFormat
  | passwordValidationFailed (msg : String)
  | emailAlreadyRegistered
  | hashingFailed (msg : String)
  | registerSuccess
deriving DecidableEq

def RegisterHandler (st : DBState) (email password : String) (now : Nat)
    (salt verifyToken : String) (newId : Nat) : DBState × RegisterResult :=
  if isValidEmail email = false then
    (st, RegisterResult.invalidEmailFormat)
  else
    match ValidatePassword password.data with
    | some msg => (st, RegisterResult.passwordValidationFailed msg)
    | none =>
      match findUserByEmail st email with
      | some _ => (st, RegisterResult.emailAlreadyRegistered)
      | none =>
        match HashPassword salt password.data with
        | Except.error e => (st, RegisterResult.hashingFailed e)
        | Except.ok h =>
          ({ st with users := st.users ++
               [{ id := newId, email := email, passwordHash := h,
                  emailVerified := false, verificationToken := some verifyToken,
                  verificationTokenExpires := some (now + verificationTokenTTL),
                  resetToken := none, resetTokenExpires := none,
                  failedLoginAttempts := 0, lockedUntil := none }] },
           RegisterResult.registerSuccess)

/-- C10: the duplicate-email check compares emails by exact, case-
sensitive string equality and no normalization happens in the core: two
register calls whose valid emails differ as strings — in particular when
they differ only in letter case — both succeed from an empty store, and
the second is not refused with the Conflict failure; two user rows
result. -/
theorem register_email_case_sensitive
    (e1 e2 password : String) (now1 now2 : Nat) (salt1 salt2 vt1 vt2 : String)
    (h1 : isValidEmail e1 = true) (h2 : isValidEmail e2 = true)
    (hcase : String.mk (e1.data.map Char.toLower) = String.mk (e2.data.map Char.toLower))
    (hne : e1 ≠ e2)
    (hp : ValidatePassword password.data = none)
    (hlen : password.data.length ≤ 72) :
    (RegisterHandler { users := [], refreshTokens := [] } e1 password now1 salt1 vt1 1).2 =
      RegisterResult.registerSuccess
    ∧ (RegisterHandler
        (RegisterHandler { users := [], refreshTokens := [] } e1 password now1 salt1 vt1 1).1
        e2 password now2 salt2 vt2 2).2 = RegisterResult.registerSuccess
    ∧ (RegisterHandler
        (RegisterHandler { users := [], refreshTokens := [] } e1 password now1 salt1 vt1 1).1
        e2 password now2 salt2 vt2 2).2 ≠ RegisterResult.emailAlreadyRegistered
    ∧ (RegisterHandler
        (RegisterHandler { users := [], refreshTokens := [] } e1 password now1 salt1 vt1 1).1
        e2 password now2 salt2 vt2 2).1.users.length = 2 := by
  have hhash : HashPassword salt1 password.data =
      Except.ok (bcryptDigest salt1 password.data) := by
    unfold HashPassword
    rw [hp]
    unfold bcryptGenerateFromPassword
    rw [if_neg (by unfold bcryptMaxInputLength; omega)]
  have hhash2 : HashPassword salt2 password.data =
      Except.ok (bcryptDigest salt2 password.data) := by
    unfold HashPassword
    rw [hp]
    unfold bcryptGenerateFromPassword
    rw [if_neg (by unfold bcryptMaxInputLength; omega)]
  have hrun1 : RegisterHandler { users := [], refreshTokens := [] } e1 password now1 salt1 vt1 1 =
      ({ users := [{ id := 1, email := e1, passwordHash := bcryptDigest salt1 password.data,
                     emailVerified := false, verificationToken := some vt1,
                     verificationTokenExpires := some (now1 + verificationTokenTTL),
                     resetToken := none, resetTokenExpires := none,
                     failedLoginAttempts := 0, lockedUntil := none }],
         refreshTokens := [] },
       RegisterResult.registerSuccess) := by
    unfold RegisterHandler
    rw [h1]
    simp only [Bool.true_eq_false, if_false, hp]
    have hfe : findUserByEmail { users := [], refreshTokens := [] } e1 = none := rfl
    rw [hfe, hhash]
    rfl
  have hfe2 : findUserByEmail
      { users := [{ id := 1, email := e1, passwordHash := bcryptDigest salt1 password.data,
                    emailVerified := false, verificationToken := some vt1,
                    verificationTokenExpires := some (now1 + verificationTokenTTL),
                    resetToken := none, resetTokenExpires := none,
                    failedLoginAttempts := 0, lockedUntil := none }],
        refreshTokens := [] } e2 = none := by
    unfold findUserByEmail
    rw [List.find?_eq_none]
    intro v hv
    simp only [List.mem_singleton] at hv
    subst hv
    simp only [beq_iff_eq]
    exact hne
  have hrun2 : RegisterHandler
      ({ users := [{ id := 1, email := e1, passwordHash := bcryptDigest salt1 password.data,
                     emailVerified := false, verificationToken := some vt1,
                     verificationTokenExpires := some (now1 + verificationTokenTTL),
                     resetToken := none, resetTokenExpires := none,
                     failedLoginAttempts := 0, lockedUntil := none }],
         refreshTokens := [] }) e2 password now2 salt2 vt2 2 =
      ({ users := [{ id := 1, email := e1, passwordHash := bcryptDigest salt1 password.data,
                     emailVerified := false, verificationToken := some vt1,
                     verificationTokenExpires := some (now1 + verificationTokenTTL),
                     resetToken := none, resetTokenExpires := none,
                     failedLoginAttempts := 0, lockedUntil := none },
                   { id := 2, email := e2, passwordHash := bcryptDigest salt2 password.data,
                     emailVerified := false, verificationToken := some vt2,
                     verificationTokenExpires := some (now2 + verificationTokenTTL),
                     resetToken := none, resetTokenExpires := none,
                     failedLoginAttempts := 0, lockedUntil := none }],
         refreshTokens := [] },
       RegisterResult.registerSuccess) := by
    unfold RegisterHandler
    rw [h2]
    simp only [Bool.true_eq_false, if_false, hp]
    rw [hfe2, hhash2]
    rfl
  have hfst : (RegisterHandler { users := [], refreshTokens := [] } e1 password now1 salt1 vt1 1).1 =
      { users := [{ id := 1, email := e1, passwordHash := bcryptDigest salt1 password.data,
                    emailVerified := false, verificationToken := some vt1,
                    verificationTokenExpires := some (now1 + verificationTokenTTL),
                    resetToken := none, resetTokenExpires := none,
                    failedLoginAttempts := 0, lockedUntil := none }],
        refreshTokens := [] } := by
    rw [hrun1]
  rw [hfst, hrun2, hrun1]
  exact ⟨rfl, rfl, by simp, rfl⟩

/-- Witness for C10: registering "a@b.com" then "A@b.com" with password
"Xk3!wqZm" — both succeed, no Conflict, two rows. -/
theorem register_email_case_sensitive_witness :
    (isValidEmail ("a@b.com") = true ∧ isValidEmail ("A@b.com") = true
      ∧ "a@b.com" ≠ "A@b.com" ∧ ValidatePassword ("Xk3!wqZm").data = none)
    ∧ ((RegisterHandler { users := [], refreshTokens := [] } "a@b.com" "Xk3!wqZm" 0 ("s1") "v1" 1).2 =
        RegisterResult.registerSuccess
      ∧ (RegisterHandler
          (RegisterHandler { users := [], refreshTokens := [] } "a@b.com" "Xk3!wqZm" 0 ("s1") "v1" 1).1
          "A@b.com" "Xk3!wqZm" 0 ("s2") "v2" 2).2 = RegisterResult.registerSuccess
      ∧ (RegisterHandler
          (RegisterHandler { users := [], refreshTokens := [] } "a@b.com" "Xk3!wqZm" 0 ("s1") "v1" 1).1
          "A@b.com" "Xk3!wqZm" 0 ("s2") "v2" 2).1.users.length = 2) := by
  have h := register_email_case_sensitive ("a@b.com") "A@b.com" "Xk3!wqZm" 0 0 ("s1") "s2" "v1" "v2"
    (by decide) (by decide) (by decide) (by decide) (by decide) (by decide)
  exact ⟨⟨by decide, by decide, by decide, by decide⟩, h.1, h.2.1, h.2.2.2⟩

/-! ## Failed-attempt counter update under concurrency (C9)

LoginHandler increments the counter in two round trips: the SELECT
snapshots failed_login_attempts into the fetched row, and the later
UPDATE stores the value computed from that snapshot
(`newAttempts := user.FailedLoginAttempts + 1`, bound as parameter $1 of
`SET failed_login_attempts = $1`).  The model below runs two such
failed-attempt flows against one account and interleaves their SELECT and
UPDATE phases; the atomic single-statement increment the spec mandates is
modelled alongside for comparison. -/

structure AttemptCounter where
  attempts : Nat
deriving DecidableEq

/-- The SELECT phase: snapshot the stored counter. -/
def selectAttempts (c : AttemptCounter) : Nat := c.attempts

/-- The value the UPDATE stores, computed from the snapshot exactly as
LoginHandler computes newAttempts. -/
def failedLoginWriteValue (snapshot : Nat) : Nat := snapshot + 1

/-- The UPDATE phase: store the computed value. -/
def updateAttemptsTo (_ : AttemptCounter) (n : Nat) : AttemptCounter :=
  { attempts := n }

/-- Two concurrent failed-password attempts whose phases interleave as
SELECT, SELECT, UPDATE, UPDATE — a legal schedule, since each attempt's
two statements are separate round trips with no surrounding transaction. -/
def twoFailedAttemptsInterleaved (c : AttemptCounter) : AttemptCounter :=
  let snap1 := selectAttempts c
  let snap2 := selectAttempts c
  let c1 := updateAttemptsTo c (failedLoginWriteValue snap1)
  updateAttemptsTo c1 (failedLoginWriteValue snap2)

/-- The atomic increment the spec requires
(UPDATE ... SET attempts = attempts + 1): reads and writes in one
statement, so concurrent executions serialize. -/
def atomicIncrementAttempts (c : AttemptCounter) : AttemptCounter :=
  { attempts := c.attempts + 1 }

/-- C9: the code's two-round-trip increment loses an update — after two
concurrent failed attempts starting from 0 the stored counter is 1,
whereas the mandated atomic increment yields 2.  So the increment is not
performed as a single atomic store update. -/
theorem failedAttempts_lost_update :
    (twoFailedAttemptsInterleaved { attempts := 0 }).attempts = 1
    ∧ (atomicIncrementAttempts (atomicIncrementAttempts { attempts := 0 })).attempts = 2
    ∧ twoFailedAttemptsInterleaved { attempts := 0 } ≠
        atomicIncrementAttempts (atomicIncrementAttempts { attempts := 0 }) := by
  exact ⟨rfl, rfl, by decide⟩
